import Mathlib

/-!
Shallow embedding of `src/optical_flow_ros/optical_flow_publisher.py`.

The numeric pipeline (scale factor, frame conversion, low-pass filter,
position integration, message assembly) is embedded over `ℝ`, translating
the Python float arithmetic into exact real arithmetic.  The lifecycle
and resource management (`on_configure`, `terminate`) are embedded as
computable state-transition functions over a record tracking the instance
fields of the node and resource open/destroy counters.
-/

namespace OpticalFlow

/-- Hard-coded field of view constant (degrees) from the module top level. -/
def FOV_DEG : ℝ := 42.0

/-- Hard-coded sensor resolution constant (pixels) from the module top level. -/
def RES_PIX : ℝ := 35

/-- Smoothing factor for the low-pass filter for pmw3901 output. -/
def alpha : ℝ := 0.9

/-- `fov = np.radians(FOV_DEG)`. -/
noncomputable def fov : ℝ := FOV_DEG * (Real.pi / 180)

/-- `cf = pos_z*2*np.tan(fov/2)/(RES_PIX*self._scaler)`, where `pos_z` is the
local variable freshly read from the range finder this tick. -/
noncomputable def cf (pos_z scaler : ℝ) : ℝ :=
  pos_z * 2 * Real.tan (fov / 2) / (RES_PIX * scaler)

/-- One step of the exponential low-pass filter applied to pmw3901 output:
`alpha * dist + (1-alpha) * filtered_prev` (lines 110-111 of the source). -/
def lowpass (dist filtered_prev : ℝ) : ℝ :=
  alpha * dist + (1 - alpha) * filtered_prev

/-- The configuration parameters read by `publish_odom` (declared in
`__init__` and immutable during a tick). -/
structure Config where
  board : String
  scaler : ℝ
  pmw3901_scaler : ℝ
  dt : ℝ
  publish_tf : Bool

/-- The mutable instance fields of `OpticalFlowPublisher` that the tick
handler touches: `_pos_x`, `_pos_y`, `_pos_z`, `_filtered_dx`, `_filtered_dy`. -/
structure FlowState where
  pos_x : ℝ
  pos_y : ℝ
  pos_z : ℝ
  filtered_dx : ℝ
  filtered_dy : ℝ

/-- The fields of the published `Odometry` message that carry data computed by
the tick: position `(x, y, z)` and linear twist `(vx, vy)`. -/
structure OdomMsg where
  x : ℝ
  y : ℝ
  z : ℝ
  vx : ℝ
  vy : ℝ

/-- The observable outcome of one invocation of `publish_odom`: the updated
instance fields, the odometry message (if published), the transform
translation (if broadcast), the values of the branch-local variables
`dist_x`, `dist_y` (a ghost observable; `(0, 0)` when the guarded body did
not run), and how many reads each sensor adapter served. -/
structure TickOut where
  state : FlowState
  msg : Option OdomMsg
  tfMsg : Option (ℝ × ℝ × ℝ)
  dist : ℝ × ℝ
  rangeReads : Nat
  flowReads : Nat

/-- The guard `self._odom_pub is not None and self._odom_pub.is_activated`:
the publisher field is either absent (`none`) or present with its activation
flag. -/
def pubGuard : Option Bool → Bool
  | some b => b
  | none => false

/-- `OpticalFlowPublisher.publish_odom`.  `pub` models `self._odom_pub`
(absent, or present with its `is_activated` flag), `rangeRaw` the value of
`self._laser_range_finder.range` (millimeters), and `flow` the outcome of
`self._sensor.get_motion(...)`: `none` when the read raised
`RuntimeError`/`AttributeError` (timeout / not ready), `some (dx, dy)` on
success.  The `except` clause maps a failed read to `(0.0, 0.0)`. -/
noncomputable def publish_odom (cfg : Config) (pub : Option Bool)
    (s : FlowState) (rangeRaw : ℝ) (flow : Option (ℝ × ℝ)) : TickOut :=
  if pubGuard pub then
    let pos_z := rangeRaw / 1000
    let dx := (flow.getD (0, 0)).1
    let dy := (flow.getD (0, 0)).2
    let c := cf pos_z cfg.scaler
    let r : FlowState × ℝ × ℝ :=
      if cfg.board = "paa5100" then
        let dist_x := -1 * c * dy
        let dist_y := c * dx
        ({ s with pos_x := s.pos_x + dist_x, pos_y := s.pos_y + dist_y },
         dist_x, dist_y)
      else if cfg.board = "pmw3901" then
        let dist_x := cfg.pmw3901_scaler * c * dx
        let dist_y := cfg.pmw3901_scaler * c * dy
        let fdx := lowpass dist_x s.filtered_dx
        let fdy := lowpass dist_y s.filtered_dy
        ({ s with filtered_dx := fdx, filtered_dy := fdy,
                  pos_x := s.pos_x + fdx, pos_y := s.pos_y + fdy },
         dist_x, dist_y)
      else
        ({ s with pos_x := s.pos_x + 0, pos_y := s.pos_y + 0 }, 0, 0)
    let s1 := r.1
    let dist_x := r.2.1
    let dist_y := r.2.2
    let m : OdomMsg :=
      { x := s1.pos_x, y := s1.pos_y, z := pos_z,
        vx := dist_x / cfg.dt, vy := dist_y / cfg.dt }
    { state := s1, msg := some m,
      tfMsg := if cfg.publish_tf then some (s1.pos_x, s1.pos_y, pos_z) else none,
      dist := (dist_x, dist_y),
      rangeReads := 1, flowReads := 1 }
  else
    { state := s, msg := none, tfMsg := none, dist := (0, 0),
      rangeReads := 0, flowReads := 0 }

/-- The `twist.linear.x` field of the published message (`0` when no message
was published). -/
noncomputable def msgVx (t : TickOut) : ℝ :=
  match t.msg with
  | some m => m.vx
  | none => 0

/-- The `twist.linear.y` field of the published message (`0` when no message
was published). -/
noncomputable def msgVy (t : TickOut) : ℝ :=
  match t.msg with
  | some m => m.vy
  | none => 0

/-- The `pose.pose.position.z` field of the published message (`0` when no
message was published). -/
noncomputable def msgZ (t : TickOut) : ℝ :=
  match t.msg with
  | some m => m.z
  | none => 0

/-- Iterating the family-B low-pass filter update with a constant new sample
`c`, starting from filtered value `f0`. -/
def filterIter (c : ℝ) : ℕ → ℝ → ℝ
  | 0, f0 => f0
  | n + 1, f0 => lowpass c (filterIter c n f0)

/-- Result of a lifecycle transition callback (`TransitionCallbackReturn`). -/
inductive TransitionResult
  | SUCCESS
  | FAILURE
deriving DecidableEq, Repr

/-- The resource-holding instance fields of the node, together with counters
for the externally observable hardware/resource operations.  `tf_attr` models
the Python attribute `_tf_broadcaster`: `none` means the attribute has been
deleted with `del` (so reading it raises `AttributeError`), `some v` means the
attribute is bound to value `v` (`v = none` is the Python value `None`). -/
structure LifecycleNode where
  laser : Option Unit
  sensor : Option Unit
  odom_pub : Option Unit
  tf_attr : Option (Option Unit)
  timer : Option Unit
  rangeOpens : Nat
  flowOpens : Nat
  timerDestroys : Nat
  pubDestroys : Nat
deriving DecidableEq, Repr

/-- The node right after `__init__`: every resource field is `None`, no
hardware session has been opened. -/
def initNode : LifecycleNode :=
  { laser := none, sensor := none, odom_pub := none, tf_attr := some none,
    timer := none, rangeOpens := 0, flowOpens := 0,
    timerDestroys := 0, pubDestroys := 0 }

/-- `OpticalFlowPublisher.on_configure`.  `board` is the `board` parameter
value; `flowInitOk` tells whether the flow sensor constructor
(`SensorClass(...)` plus `set_rotation`) succeeds or raises (the `except`
clause catches the raise and returns `FAILURE`).  The range finder
(`I2C(3)`; `VL53L0X(i2c)`) is opened unconditionally before the board lookup;
its construction is modelled as succeeding.  `sensor_classes` maps exactly
`"pmw3901"` and `"paa5100"`; any other board makes `sensor_classes.get`
return `None` and the callback return `FAILURE`. -/
def on_configure (board : String) (flowInitOk : Bool) (n : LifecycleNode) :
    LifecycleNode × TransitionResult :=
  let n1 := { n with laser := some (), rangeOpens := n.rangeOpens + 1 }
  if board = "pmw3901" ∨ board = "paa5100" then
    if flowInitOk then
      let n2 := { n1 with sensor := some (), flowOpens := n1.flowOpens + 1 }
      let n3 := { n2 with odom_pub := some (), tf_attr := some (some ()),
                          timer := some () }
      (n3, TransitionResult.SUCCESS)
    else
      (n1, TransitionResult.FAILURE)
  else
    (n1, TransitionResult.FAILURE)

/-- `OpticalFlowPublisher.terminate`.  The returned `Bool` is `true` when the
call raises: reading `self._tf_broadcaster` after a previous call deleted the
attribute raises `AttributeError`.  Neither `self._timer` nor
`self._odom_pub` is reset to `None` after being destroyed, so each non-`None`
field is cancelled/destroyed again on every call (counted in
`timerDestroys` / `pubDestroys`; in the host framework the repeated
`Timer.cancel` on a destroyed timer may itself raise, which only adds to the
raise modelled here). -/
def terminate (n : LifecycleNode) : LifecycleNode × Bool :=
  let n1 :=
    if n.timer ≠ none then { n with timerDestroys := n.timerDestroys + 1 }
    else n
  let n2 :=
    if n1.odom_pub ≠ none then { n1 with pubDestroys := n1.pubDestroys + 1 }
    else n1
  match n2.tf_attr with
  | none => (n2, true)
  | some v =>
      if v ≠ none then ({ n2 with tf_attr := none }, false)
      else (n2, false)

/-- `OpticalFlowPublisher.on_cleanup`: runs `terminate`, then returns
`SUCCESS`; a raise inside `terminate` propagates (second component). -/
def on_cleanup (n : LifecycleNode) : LifecycleNode × Bool × TransitionResult :=
  let r := terminate n
  (r.1, r.2, TransitionResult.SUCCESS)

/-- `OpticalFlowPublisher.on_shutdown`: runs `terminate`, then returns
`SUCCESS`; a raise inside `terminate` propagates (second component). -/
def on_shutdown (n : LifecycleNode) : LifecycleNode × Bool × TransitionResult :=
  let r := terminate n
  (r.1, r.2, TransitionResult.SUCCESS)

/-! ## Characterization lemmas for the three board branches of `publish_odom` -/

/-- With the publisher active and board `"pmw3901"`, one tick converts the
displacement with the pmw3901 scaler, low-pass-filters it, integrates the
filtered value, and reports velocity from the unfiltered value. -/
theorem publish_odom_pmw (cfg : Config) (s : FlowState) (raw dx dy : ℝ)
    (h : cfg.board = "pmw3901") :
    publish_odom cfg (some true) s raw (some (dx, dy)) =
      { state := { s with
          pos_x := s.pos_x
            + lowpass (cfg.pmw3901_scaler * cf (raw / 1000) cfg.scaler * dx)
                s.filtered_dx,
          pos_y := s.pos_y
            + lowpass (cfg.pmw3901_scaler * cf (raw / 1000) cfg.scaler * dy)
                s.filtered_dy,
          filtered_dx :=
            lowpass (cfg.pmw3901_scaler * cf (raw / 1000) cfg.scaler * dx)
              s.filtered_dx,
          filtered_dy :=
            lowpass (cfg.pmw3901_scaler * cf (raw / 1000) cfg.scaler * dy)
              s.filtered_dy },
        msg := some
          { x := s.pos_x
              + lowpass (cfg.pmw3901_scaler * cf (raw / 1000) cfg.scaler * dx)
                  s.filtered_dx,
            y := s.pos_y
              + lowpass (cfg.pmw3901_scaler * cf (raw / 1000) cfg.scaler * dy)
                  s.filtered_dy,
            z := raw / 1000,
            vx := cfg.pmw3901_scaler * cf (raw / 1000) cfg.scaler * dx / cfg.dt,
            vy := cfg.pmw3901_scaler * cf (raw / 1000) cfg.scaler * dy / cfg.dt },
        tfMsg := if cfg.publish_tf then
            some (s.pos_x
              + lowpass (cfg.pmw3901_scaler * cf (raw / 1000) cfg.scaler * dx)
                  s.filtered_dx,
              s.pos_y
              + lowpass (cfg.pmw3901_scaler * cf (raw / 1000) cfg.scaler * dy)
                  s.filtered_dy,
              raw / 1000)
          else none,
        dist := (cfg.pmw3901_scaler * cf (raw / 1000) cfg.scaler * dx,
                 cfg.pmw3901_scaler * cf (raw / 1000) cfg.scaler * dy),
        rangeReads := 1, flowReads := 1 } := by
  simp [publish_odom, pubGuard, h]

/-- With the publisher active and board `"paa5100"`, one tick applies the
fixed frame rotation and integrates the converted displacement directly. -/
theorem publish_odom_paa (cfg : Config) (s : FlowState) (raw dx dy : ℝ)
    (h : cfg.board = "paa5100") :
    publish_odom cfg (some true) s raw (some (dx, dy)) =
      { state := { s with
          pos_x := s.pos_x + -1 * cf (raw / 1000) cfg.scaler * dy,
          pos_y := s.pos_y + cf (raw / 1000) cfg.scaler * dx },
        msg := some
          { x := s.pos_x + -1 * cf (raw / 1000) cfg.scaler * dy,
            y := s.pos_y + cf (raw / 1000) cfg.scaler * dx,
            z := raw / 1000,
            vx := -1 * cf (raw / 1000) cfg.scaler * dy / cfg.dt,
            vy := cf (raw / 1000) cfg.scaler * dx / cfg.dt },
        tfMsg := if cfg.publish_tf then
            some (s.pos_x + -1 * cf (raw / 1000) cfg.scaler * dy,
                  s.pos_y + cf (raw / 1000) cfg.scaler * dx, raw / 1000)
          else none,
        dist := (-1 * cf (raw / 1000) cfg.scaler * dy,
                 cf (raw / 1000) cfg.scaler * dx),
        rangeReads := 1, flowReads := 1 } := by
  simp [publish_odom, pubGuard, h]

/-- With the publisher active and an unrecognized board, one tick forces the
displacement to `(0, 0)` and still publishes. -/
theorem publish_odom_unknown (cfg : Config) (s : FlowState) (raw dx dy : ℝ)
    (h1 : cfg.board ≠ "paa5100") (h2 : cfg.board ≠ "pmw3901") :
    publish_odom cfg (some true) s raw (some (dx, dy)) =
      { state := { s with pos_x := s.pos_x + 0, pos_y := s.pos_y + 0 },
        msg := some
          { x := s.pos_x + 0, y := s.pos_y + 0, z := raw / 1000,
            vx := 0 / cfg.dt, vy := 0 / cfg.dt },
        tfMsg := if cfg.publish_tf then
            some (s.pos_x + 0, s.pos_y + 0, raw / 1000)
          else none,
        dist := (0, 0),
        rangeReads := 1, flowReads := 1 } := by
  simp [publish_odom, pubGuard, h1, h2]

/-- One filter step moves the error `filtered - c` by the factor `1 - alpha`. -/
theorem lowpass_sub (c f : ℝ) : lowpass c f - c = (1 - alpha) * (f - c) := by
  unfold lowpass
  ring

/-! ## Claims -/

/-- Claim C1, corrected.  With height `z ≥ 0` and zero pixel displacement,
the branch-local displacement is `(0, 0)` and the integrated position is
unchanged for board `"paa5100"` and for unrecognized boards; for board
`"pmw3901"` the tick still adds the decayed filter state, so each position
coordinate changes by `(1 - alpha)` times the prior filtered displacement
and is unchanged only when that prior filtered displacement is zero. -/
theorem claim1_amended (cfg : Config) (s : FlowState) (raw : ℝ) (hz : 0 ≤ raw) :
    (publish_odom cfg (some true) s raw (some (0, 0))).state.pos_x
      = (if cfg.board = "pmw3901" then s.pos_x + (1 - alpha) * s.filtered_dx
         else s.pos_x) ∧
    (publish_odom cfg (some true) s raw (some (0, 0))).state.pos_y
      = (if cfg.board = "pmw3901" then s.pos_y + (1 - alpha) * s.filtered_dy
         else s.pos_y) ∧
    (publish_odom cfg (some true) s raw (some (0, 0))).dist = (0, 0) := by
  by_cases h1 : cfg.board = "paa5100"
  · have h2 : cfg.board ≠ "pmw3901" := by rw [h1]; decide
    rw [publish_odom_paa _ _ _ _ _ h1]
    simp [h2]
  · by_cases h2 : cfg.board = "pmw3901"
    · rw [publish_odom_pmw _ _ _ _ _ h2]
      simp [h2, lowpass]
    · rw [publish_odom_unknown _ _ _ _ _ h1 h2]
      simp [h2]

/-- Witness for `claim1_amended` at a concrete pmw3901 tick with a nonzero
prior filter state. -/
theorem claim1_witness :
    (publish_odom ⟨"pmw3901", 5, 0.45, 0.01, true⟩ (some true)
        ⟨0, 0, 0.8, 1, 0⟩ 0 (some (0, 0))).state.pos_x
      = (if ("pmw3901" : String) = "pmw3901" then (0 : ℝ) + (1 - alpha) * 1
         else 0) ∧
    (publish_odom ⟨"pmw3901", 5, 0.45, 0.01, true⟩ (some true)
        ⟨0, 0, 0.8, 1, 0⟩ 0 (some (0, 0))).state.pos_y
      = (if ("pmw3901" : String) = "pmw3901" then (0 : ℝ) + (1 - alpha) * 0
         else 0) ∧
    (publish_odom ⟨"pmw3901", 5, 0.45, 0.01, true⟩ (some true)
        ⟨0, 0, 0.8, 1, 0⟩ 0 (some (0, 0))).dist = (0, 0) :=
  claim1_amended ⟨"pmw3901", 5, 0.45, 0.01, true⟩ ⟨0, 0, 0.8, 1, 0⟩ 0 (le_refl 0)

/-- Counterexample to claim C1 as stated: a pmw3901 tick with height `0`,
zero pixel displacement and prior filtered displacement `1` moves `pos_x`
from `0` to `0.1`. -/
theorem claim1_counterexample :
    (publish_odom ⟨"pmw3901", 5, 0.45, 0.01, true⟩ (some true)
        ⟨0, 0, 0.8, 1, 0⟩ 0 (some (0, 0))).state.pos_x = 0.1 ∧
    (0.1 : ℝ) ≠ 0 := by
  constructor
  · rw [publish_odom_pmw _ _ _ _ _ rfl]
    simp [lowpass, cf]
    norm_num [alpha]
  · norm_num

/-- Claim C2, corrected.  The published velocity is always
`dist_x / dt, dist_y / dt` for the branch-local `dist` values.  For boards
other than `"pmw3901"` that `dist` is exactly what was added to the position,
so velocity times `dt` equals the position delta; for `"pmw3901"` the
position delta is instead the low-pass-filtered value
`lowpass dist filtered_prev`, which differs from `dist` in general. -/
theorem claim2_amended (cfg : Config) (s : FlowState) (raw dx dy : ℝ)
    (hdt : cfg.dt ≠ 0) :
    if cfg.board = "pmw3901" then
      msgVx (publish_odom cfg (some true) s raw (some (dx, dy)))
        = (publish_odom cfg (some true) s raw (some (dx, dy))).dist.1 / cfg.dt ∧
      msgVy (publish_odom cfg (some true) s raw (some (dx, dy)))
        = (publish_odom cfg (some true) s raw (some (dx, dy))).dist.2 / cfg.dt ∧
      (publish_odom cfg (some true) s raw (some (dx, dy))).state.pos_x - s.pos_x
        = lowpass (publish_odom cfg (some true) s raw (some (dx, dy))).dist.1
            s.filtered_dx ∧
      (publish_odom cfg (some true) s raw (some (dx, dy))).state.pos_y - s.pos_y
        = lowpass (publish_odom cfg (some true) s raw (some (dx, dy))).dist.2
            s.filtered_dy
    else
      msgVx (publish_odom cfg (some true) s raw (some (dx, dy))) * cfg.dt
        = (publish_odom cfg (some true) s raw (some (dx, dy))).state.pos_x
            - s.pos_x ∧
      msgVy (publish_odom cfg (some true) s raw (some (dx, dy))) * cfg.dt
        = (publish_odom cfg (some true) s raw (some (dx, dy))).state.pos_y
            - s.pos_y := by
  by_cases h2 : cfg.board = "pmw3901"
  · rw [publish_odom_pmw _ _ _ _ _ h2]
    simp [h2, msgVx, msgVy]
  · simp only [h2, if_false]
    by_cases h1 : cfg.board = "paa5100"
    · rw [publish_odom_paa _ _ _ _ _ h1]
      simp [msgVx, msgVy]
      constructor <;> field_simp
    · rw [publish_odom_unknown _ _ _ _ _ h1 h2]
      simp [msgVx, msgVy]

/-- Witness for `claim2_amended` at a concrete pmw3901 tick. -/
theorem claim2_witness :
    msgVx (publish_odom ⟨"pmw3901", 5, 0.45, 1/100, true⟩ (some true)
        ⟨0, 0, 0.8, 1, 0⟩ 0 (some (5, 0)))
      = (publish_odom ⟨"pmw3901", 5, 0.45, 1/100, true⟩ (some true)
          ⟨0, 0, 0.8, 1, 0⟩ 0 (some (5, 0))).dist.1 / (1/100) ∧
    msgVy (publish_odom ⟨"pmw3901", 5, 0.45, 1/100, true⟩ (some true)
        ⟨0, 0, 0.8, 1, 0⟩ 0 (some (5, 0)))
      = (publish_odom ⟨"pmw3901", 5, 0.45, 1/100, true⟩ (some true)
          ⟨0, 0, 0.8, 1, 0⟩ 0 (some (5, 0))).dist.2 / (1/100) ∧
    (publish_odom ⟨"pmw3901", 5, 0.45, 1/100, true⟩ (some true)
        ⟨0, 0, 0.8, 1, 0⟩ 0 (some (5, 0))).state.pos_x - 0
      = lowpass (publish_odom ⟨"pmw3901", 5, 0.45, 1/100, true⟩ (some true)
          ⟨0, 0, 0.8, 1, 0⟩ 0 (some (5, 0))).dist.1 1 ∧
    (publish_odom ⟨"pmw3901", 5, 0.45, 1/100, true⟩ (some true)
        ⟨0, 0, 0.8, 1, 0⟩ 0 (some (5, 0))).state.pos_y - 0
      = lowpass (publish_odom ⟨"pmw3901", 5, 0.45, 1/100, true⟩ (some true)
          ⟨0, 0, 0.8, 1, 0⟩ 0 (some (5, 0))).dist.2 0 := by
  have h := claim2_amended ⟨"pmw3901", 5, 0.45, 1/100, true⟩ ⟨0, 0, 0.8, 1, 0⟩
    0 5 0 (by norm_num)
  rw [if_pos rfl] at h
  exact h

/-- Counterexample to claim C2 as stated: on a pmw3901 tick with prior
filtered displacement `1`, height `0` and pixel input `(5, 0)`, the reported
velocity (`0`) is not the position delta (`0.1`) divided by `dt`. -/
theorem claim2_counterexample :
    msgVx (publish_odom ⟨"pmw3901", 5, 0.45, 1/100, true⟩ (some true)
        ⟨0, 0, 0.8, 1, 0⟩ 0 (some (5, 0)))
      ≠ ((publish_odom ⟨"pmw3901", 5, 0.45, 1/100, true⟩ (some true)
        ⟨0, 0, 0.8, 1, 0⟩ 0 (some (5, 0))).state.pos_x - 0) / (1/100) := by
  rw [publish_odom_pmw _ _ _ _ _ rfl]
  simp [msgVx, lowpass, cf]
  norm_num [alpha]

/-- Claim C3, corrected.  An unrecognized board identifier makes
`on_configure` return `FAILURE` without opening the flow sensor or touching
`self._sensor`; but the range-finder session is opened unconditionally before
the board lookup, so one range open call is observable and the session is
left assigned after the failed configure. -/
theorem claim3_amended (board : String) (flowInitOk : Bool) (n : LifecycleNode)
    (h1 : board ≠ "pmw3901") (h2 : board ≠ "paa5100") :
    (on_configure board flowInitOk n).2 = TransitionResult.FAILURE ∧
    (on_configure board flowInitOk n).1.flowOpens = n.flowOpens ∧
    (on_configure board flowInitOk n).1.sensor = n.sensor ∧
    (on_configure board flowInitOk n).1.rangeOpens = n.rangeOpens + 1 ∧
    (on_configure board flowInitOk n).1.laser = some () := by
  simp [on_configure, h1, h2]

/-- Witness for `claim3_amended` on a fresh node with board `"bogus"`. -/
theorem claim3_witness :
    (on_configure "bogus" true initNode).2 = TransitionResult.FAILURE ∧
    (on_configure "bogus" true initNode).1.flowOpens = initNode.flowOpens ∧
    (on_configure "bogus" true initNode).1.sensor = initNode.sensor ∧
    (on_configure "bogus" true initNode).1.rangeOpens = initNode.rangeOpens + 1 ∧
    (on_configure "bogus" true initNode).1.laser = some () :=
  claim3_amended "bogus" true initNode (by decide) (by decide)

/-- Counterexample to claim C3 as stated: configuring a fresh node with board
`"bogus"` fails, yet the range-finder open count is not zero and the range
session is left assigned. -/
theorem claim3_counterexample :
    (on_configure "bogus" true initNode).2 = TransitionResult.FAILURE ∧
    (on_configure "bogus" true initNode).1.rangeOpens ≠ 0 ∧
    (on_configure "bogus" true initNode).1.laser = some () ∧
    (on_configure "bogus" true initNode).1.flowOpens = 0 := by
  decide

/-- Claim C4: the code contradicts it.  After a successful configure, a first
cleanup releases the timer and publisher once and raises nothing, but the
fields are never reset to `None` and the broadcaster attribute is deleted,
so a following shutdown destroys the timer and the publisher a second time
and raises (`AttributeError` on the deleted `_tf_broadcaster`). -/
theorem claim4_double_release_bug :
    ((on_cleanup (on_configure "pmw3901" true initNode).1).2.1 = false) ∧
    (on_cleanup (on_configure "pmw3901" true initNode).1).1.timerDestroys = 1 ∧
    (on_cleanup (on_configure "pmw3901" true initNode).1).1.pubDestroys = 1 ∧
    ((on_shutdown
        (on_cleanup (on_configure "pmw3901" true initNode).1).1).2.1 = true) ∧
    (on_shutdown
        (on_cleanup (on_configure "pmw3901" true initNode).1).1).1.timerDestroys
      = 2 ∧
    (on_shutdown
        (on_cleanup (on_configure "pmw3901" true initNode).1).1).1.pubDestroys
      = 2 := by
  decide

/-- Claim C5: with board `"paa5100"`, pixel input `(1, 0)` yields
`dist = (0, cf)` and pixel input `(0, 1)` yields `dist = (-cf, 0)` for the
`cf` computed that tick, and the position moves by exactly those amounts. -/
theorem claim5_paa_frame_conversion (cfg : Config) (s : FlowState) (raw : ℝ)
    (h : cfg.board = "paa5100") :
    (publish_odom cfg (some true) s raw (some (1, 0))).dist
        = (0, cf (raw / 1000) cfg.scaler) ∧
    (publish_odom cfg (some true) s raw (some (1, 0))).state.pos_x = s.pos_x ∧
    (publish_odom cfg (some true) s raw (some (1, 0))).state.pos_y
        = s.pos_y + cf (raw / 1000) cfg.scaler ∧
    (publish_odom cfg (some true) s raw (some (0, 1))).dist
        = (-(cf (raw / 1000) cfg.scaler), 0) ∧
    (publish_odom cfg (some true) s raw (some (0, 1))).state.pos_x
        = s.pos_x - cf (raw / 1000) cfg.scaler ∧
    (publish_odom cfg (some true) s raw (some (0, 1))).state.pos_y = s.pos_y := by
  rw [publish_odom_paa _ _ _ _ _ h, publish_odom_paa _ _ _ _ _ h]
  norm_num
  ring

/-- Witness for `claim5_paa_frame_conversion` at a concrete paa5100 tick. -/
theorem claim5_witness :
    (publish_odom ⟨"paa5100", 5, 0.45, 0.01, true⟩ (some true)
        ⟨2, 3, 0.8, 0, 0⟩ 800 (some (1, 0))).dist
        = (0, cf (800 / 1000) 5) ∧
    (publish_odom ⟨"paa5100", 5, 0.45, 0.01, true⟩ (some true)
        ⟨2, 3, 0.8, 0, 0⟩ 800 (some (1, 0))).state.pos_x = 2 ∧
    (publish_odom ⟨"paa5100", 5, 0.45, 0.01, true⟩ (some true)
        ⟨2, 3, 0.8, 0, 0⟩ 800 (some (1, 0))).state.pos_y = 3 + cf (800 / 1000) 5 ∧
    (publish_odom ⟨"paa5100", 5, 0.45, 0.01, true⟩ (some true)
        ⟨2, 3, 0.8, 0, 0⟩ 800 (some (0, 1))).dist = (-(cf (800 / 1000) 5), 0) ∧
    (publish_odom ⟨"paa5100", 5, 0.45, 0.01, true⟩ (some true)
        ⟨2, 3, 0.8, 0, 0⟩ 800 (some (0, 1))).state.pos_x = 2 - cf (800 / 1000) 5 ∧
    (publish_odom ⟨"paa5100", 5, 0.45, 0.01, true⟩ (some true)
        ⟨2, 3, 0.8, 0, 0⟩ 800 (some (0, 1))).state.pos_y = 3 :=
  claim5_paa_frame_conversion ⟨"paa5100", 5, 0.45, 0.01, true⟩ ⟨2, 3, 0.8, 0, 0⟩
    800 rfl

/-- Claim C6: the filter smoothing factor is `0.9` and one filter step at
steady state is exactly the identity: `lowpass v v = v` for every `v`. -/
theorem claim6_filter_idempotent : alpha = 0.9 ∧ ∀ v : ℝ, lowpass v v = v := by
  refine ⟨by norm_num [alpha], fun v => ?_⟩
  unfold lowpass
  ring

/-- Claim C7: iterating the filter with constant input `c` shrinks the error
by the exact factor `1 - alpha` per step, so after `n` steps the error is
`0.1 ^ n` times the initial error. -/
theorem claim7_filter_convergence (c f0 : ℝ) (n : ℕ) :
    |filterIter c (n + 1) f0 - c| = (1 - alpha) * |filterIter c n f0 - c| ∧
    |filterIter c n f0 - c| = (0.1 : ℝ) ^ n * |f0 - c| := by
  constructor
  · show |lowpass c (filterIter c n f0) - c| = _
    rw [lowpass_sub, abs_mul]
    norm_num [alpha]
  · induction n with
    | zero => simp [filterIter]
    | succ m ih =>
        show |lowpass c (filterIter c m f0) - c| = _
        have habs : |1 - alpha| = 0.1 := by
          rw [abs_of_nonneg] <;> norm_num [alpha]
        rw [lowpass_sub, abs_mul, ih, pow_succ, habs]
        ring

/-- Claim C8: a failed flow-sensor read (timeout / not ready) is handled
inside the tick as displacement `(0, 0)`: the outcome of the tick is the same as
a successful read of `(0, 0)`, and an active tick still publishes. -/
theorem claim8_timeout_zero_motion (cfg : Config) (pub : Option Bool)
    (s : FlowState) (raw : ℝ) :
    publish_odom cfg pub s raw none = publish_odom cfg pub s raw (some (0, 0)) ∧
    (publish_odom cfg (some true) s raw none).msg.isSome = true :=
  ⟨rfl, rfl⟩

/-- Claim C9, corrected.  The `z` published each tick equals the raw
range reading of that tick divided by `1000`, and `z` is never integrated; but the
persistent `_pos_z` field is never overwritten by the tick — it keeps its
prior (configured) value. -/
theorem claim9_amended (cfg : Config) (s : FlowState) (raw : ℝ)
    (flow : Option (ℝ × ℝ)) :
    (publish_odom cfg (some true) s raw flow).state.pos_z = s.pos_z ∧
    msgZ (publish_odom cfg (some true) s raw flow) = raw / 1000 := by
  unfold publish_odom msgZ
  simp only [pubGuard]
  split_ifs <;> simp

/-- Counterexample to claim C9 as stated: a tick whose raw range reading is
`500` (i.e. `0.5` meters) publishes `z = 0.5` but leaves the stored `_pos_z`
field at its prior value `0.8`. -/
theorem claim9_counterexample :
    (publish_odom ⟨"pmw3901", 5, 0.45, 0.01, true⟩ (some true)
        ⟨0, 0, 0.8, 0, 0⟩ 500 (some (0, 0))).state.pos_z = 0.8 ∧
    msgZ (publish_odom ⟨"pmw3901", 5, 0.45, 0.01, true⟩ (some true)
        ⟨0, 0, 0.8, 0, 0⟩ 500 (some (0, 0))) = 0.5 ∧
    (0.8 : ℝ) ≠ 0.5 := by
  refine ⟨?_, ?_, by norm_num⟩
  · rw [publish_odom_pmw _ _ _ _ _ rfl]
  · rw [publish_odom_pmw _ _ _ _ _ rfl]
    norm_num [msgZ]

/-- Claim C10: when the publisher is absent or not activated, the tick guard
suppresses the whole body — no sensor read is performed, no message or
transform is produced, and every persistent field is left unchanged. -/
theorem claim10_inactive_noop (cfg : Config) (pub : Option Bool) (s : FlowState)
    (raw : ℝ) (flow : Option (ℝ × ℝ)) (h : pubGuard pub = false) :
    publish_odom cfg pub s raw flow =
      { state := s, msg := none, tfMsg := none, dist := (0, 0),
        rangeReads := 0, flowReads := 0 } := by
  simp [publish_odom, h]

/-- Witness for `claim10_inactive_noop` with the publisher field absent. -/
theorem claim10_witness :
    publish_odom ⟨"pmw3901", 5, 0.45, 0.01, true⟩ none ⟨1, 2, 3, 4, 5⟩ 500
        (some (6, 7)) =
      { state := ⟨1, 2, 3, 4, 5⟩, msg := none, tfMsg := none, dist := (0, 0),
        rangeReads := 0, flowReads := 0 } :=
  claim10_inactive_noop ⟨"pmw3901", 5, 0.45, 0.01, true⟩ none ⟨1, 2, 3, 4, 5⟩
    500 (some (6, 7)) rfl

end OpticalFlow
